import Mathlib

/-!
# Verification development for the speedtest_statuspage crate

Shallow embedding of `src/lib.rs` / `src/main.rs` / `src/models.rs`.

Modelling conventions:
* Rust `f64` fields are modelled as `Rat` (the bps → mbps derivation divides
  by the constant `1_000_000.0`; the equality claims relate the very value the
  code computes, so exact rationals are faithful).
* Rust `usize`/`u64` values are `Nat`; where u64 overflow matters the
  arithmetic is taken modulo `2 ^ 64` (release-profile wrapping semantics).
* `std::time::Instant` is an abstract time stamp, modelled as `Nat`.
* `serde_json::Value` (the opaque `share` payload) is a simple JSON tree.
* `serde_json::from_str::<SpeedTestResponse>` is an external library call;
  the fetch cycle is parametrised over the deserializer
  `String → Except String SpeedTestResponse`, as the spec treats the raw JSON
  schema as an opaque external data source.
* The global `LAST_RESULT : Mutex<Option<(SpeedTestResult, Instant)>>` cache
  is modelled by explicit state passing of `Option (SpeedTestResult × Nat)`;
  each critical section of the Rust code becomes a pure state transformer.
-/

/-- JSON value tree, modelling `serde_json::Value` for the opaque `share`
payload (numbers as exact rationals). -/
inductive JsonVal where
  | null : JsonVal
  | bool (b : Bool) : JsonVal
  | num (q : Rat) : JsonVal
  | str (s : String) : JsonVal
  | arr (xs : List JsonVal) : JsonVal
  | obj (fields : List (String × JsonVal)) : JsonVal

/-- Client metadata record, from `models.rs` `ClientInfo`: all fields are
free-form strings passed through verbatim. -/
structure ClientInfo where
  country : String
  ip : String
  isp : String
  ispdlavg : String
  isprating : String
  ispulavg : String
  lat : String
  loggedin : String
  lon : String
  rating : String
deriving Repr, DecidableEq

/-- Server metadata record, from `models.rs` `ServerInfo`. -/
structure ServerInfo where
  cc : String
  country : String
  d : Rat
  host : String
  id : String
  lat : String
  latency : Rat
  lon : String
  name : String
  sponsor : String
  url : String
deriving Repr, DecidableEq

/-- Raw deserialized output of `speedtest-cli --json`, from `models.rs`
`SpeedTestResponse` (the spec's RawMeasurement). -/
structure SpeedTestResponse where
  bytes_received : Nat
  bytes_sent : Nat
  client : ClientInfo
  download : Rat
  ping : Rat
  server : ServerInfo
  share : Option JsonVal
  timestamp : String
  upload : Rat

/-- Processed, cached result, from `models.rs` `SpeedTestResult` (the spec's
CanonicalResult). -/
structure SpeedTestResult where
  bytes_received : Nat
  bytes_sent : Nat
  download_bps : Rat
  upload_bps : Rat
  download_mbps : Rat
  upload_mbps : Rat
  ping_ms : Rat
  client : ClientInfo
  server : ServerInfo
  share : Option JsonVal
  timestamp : String

/-- State of the `LAST_RESULT` cache slot: the most recent result paired with
the instant it was cached, or empty. -/
abbrev CacheState : Type := Option (SpeedTestResult × Nat)

/-- Reads the cache, `lib.rs` `get_last_result`: clones the cached result,
dropping the instant. -/
def get_last_result (cache : CacheState) : Option SpeedTestResult :=
  cache.map (fun p => p.1)

/-- Writes the cache, `lib.rs` `set_last_result_for_test`: stores the given
result with the current instant, discarding any previous entry. -/
def set_last_result_for_test (result : SpeedTestResult) (now : Nat)
    (_cache : CacheState) : CacheState :=
  some (result, now)

/-- Empties the cache, `lib.rs` `clear_last_result_for_test`. -/
def clear_last_result_for_test (_cache : CacheState) : CacheState :=
  none

/-- Observable log line emitted by one fetch cycle: the success `println!` or
one of the two `eprintln!` error reports. -/
inductive LogLine where
  | updated (timestamp : String) : LogLine
  | parse_failed (err : String) : LogLine
  | runner_failed (err : String) : LogLine
deriving Repr, DecidableEq

/-- Record construction from `run_speedtest_and_cache_with_runner`
(`lib.rs` lines 179–191): byte counts, ping, descriptors, share and timestamp
copied; rates copied as `*_bps`; mbps derived by dividing by `1_000_000.0`. -/
def canonical_result (data : SpeedTestResponse) : SpeedTestResult :=
  { bytes_received := data.bytes_received
    bytes_sent := data.bytes_sent
    download_bps := data.download
    upload_bps := data.upload
    download_mbps := data.download / 1000000
    upload_mbps := data.upload / 1000000
    ping_ms := data.ping
    client := data.client
    server := data.server
    share := data.share
    timestamp := data.timestamp }

/-- One fetch cycle, `lib.rs` `run_speedtest_and_cache_with_runner`:
`runner_output` is the result of `runner.run_speedtest().await`, `deser` is
`serde_json::from_str::<SpeedTestResponse>`, `now` the `Instant::now()` taken
inside the success branch, `cache` the `LAST_RESULT` state on entry. Returns
the cache state on exit together with the log line printed. -/
def run_speedtest_and_cache_with_runner
    (deser : String → Except String SpeedTestResponse)
    (runner_output : Except String String)
    (now : Nat) (cache : CacheState) : CacheState × LogLine :=
  match runner_output with
  | Except.ok stdout =>
    match deser stdout with
    | Except.ok data =>
      let result := canonical_result data
      (some (result, now), LogLine.updated result.timestamp)
    | Except.error e => (cache, LogLine.parse_failed e)
  | Except.error e => (cache, LogLine.runner_failed e)

/-- Body of an actix HTTP response as built by the `/speed` handler: either
`HttpResponse::Ok().json(r)` or a plain-text `body(s)`. -/
inductive ResponseBody where
  | json (result : SpeedTestResult) : ResponseBody
  | text (s : String) : ResponseBody

/-- HTTP response: numeric status code plus body. -/
structure HttpResponseModel where
  status : Nat
  body : ResponseBody

/-- HTTP GET `/speed` handler, `lib.rs` `speedtest`: 200 OK with the cached
result as JSON when present, 503 Service Unavailable otherwise. -/
def speedtest (cache : CacheState) : HttpResponseModel :=
  match cache with
  | some (cached_result, _timestamp) =>
    { status := 200, body := ResponseBody.json cached_result }
  | none =>
    { status := 503, body := ResponseBody.text "Speedtest result not available yet." }

/-- Query service, `lib.rs` `get_cached_speedtest_result`: clones the cached
result or fails with a not-ready message. -/
def get_cached_speedtest_result (cache : CacheState) :
    Except String SpeedTestResult :=
  match cache with
  | some (cached_result, _) => Except.ok cached_result
  | none => Except.error "Speedtest result not available yet."

/-- Outcome of attempting to run the `speedtest-cli` child process: either the
spawn itself failed (`Command::output()` returned `Err`, reason text attached),
or the process completed with an exit-status success flag and captured
stdout/stderr text (captured bytes assumed valid UTF-8, so the lossy
conversion is the identity). -/
inductive ProcessOutcome where
  | spawn_error (reason : String) : ProcessOutcome
  | completed (success : Bool) (stdout : String) (stderr : String) : ProcessOutcome
deriving Repr, DecidableEq

namespace RealSpeedtestRunner

/-- Production runner, `lib.rs` `RealSpeedtestRunner::run_speedtest`, as a
function of the child-process outcome: success status yields the captured
stdout; a completed-but-failed run yields the `speedtest-cli failed: {stderr}`
error; a spawn failure yields the `Failed to run speedtest-cli: {e}` error. -/
def run_speedtest (proc : ProcessOutcome) : Except String String :=
  match proc with
  | ProcessOutcome.spawn_error e =>
    Except.error ("Failed to run speedtest-cli: " ++ e)
  | ProcessOutcome.completed success stdout stderr =>
    if success then Except.ok stdout
    else Except.error ("speedtest-cli failed: " ++ stderr)

end RealSpeedtestRunner

/-- Largest value of a Rust `u64`. -/
def U64_MAX : Nat := 2 ^ 64 - 1

/-- Value of a decimal digit character, `none` for a non-digit. -/
def digit_val (c : Char) : Option Nat :=
  if c.isDigit then some (c.toNat - 48) else none

/-- Accumulated value of a digit string, `none` when any character is not an
ASCII decimal digit. -/
def digits_val (cs : List Char) : Option Nat :=
  cs.foldl (fun acc c => acc.bind (fun n => (digit_val c).map (fun d => n * 10 + d)))
    (some 0)

/-- Rust's `str::parse::<u64>` on the `INTERVAL_MINUTES` string: an optional
leading `+`, then one or more ASCII decimal digits, value at most `u64::MAX`;
anything else (empty, sign only, minus sign, other characters, overflow)
fails. -/
def u64_from_str (s : String) : Option Nat :=
  let cs :=
    match s.data with
    | '+' :: rest => rest
    | other => other
  if cs.isEmpty then none
  else
    match digits_val cs with
    | none => none
    | some n => if n ≤ U64_MAX then some n else none

/-- Refresh-interval configuration, `lib.rs` `min_frequency_duration`: reads
the `INTERVAL_MINUTES` environment variable (modelled as `Option String`),
parses it as `u64`, falls back to 10 minutes when absent or unparsable, and
returns `Duration::from_secs(minutes * 60)` — the result is the duration in
seconds, with the `u64` product taken modulo `2 ^ 64` (release-profile
wrapping). -/
def min_frequency_duration (interval_minutes_env : Option String) : Nat :=
  let minutes := (interval_minutes_env.bind u64_from_str).getD 10
  minutes * 60 % 2 ^ 64

/-- Start time of the n-th fetch cycle of `spawn_speedtest_scheduler`
(`lib.rs` lines 206–218) for a nonzero `period` (seconds), idealizing fetch
cycles as instantaneous and starting at time 0. Cycle 0 is the explicit
startup run; loop iteration k awaits tick k of `tokio::time::interval period`
created at time 0, and tokio's documented semantics make the first tick
(k = 0) complete immediately, with tick k due at `k * period`. -/
def scheduler_cycle_start (period n : Nat) : Nat :=
  match n with
  | 0 => 0
  | Nat.succ k => k * period

/-- Observable fate of the scheduler task. -/
inductive SchedulerBehavior where
  | panicked (cycles_run : Nat) : SchedulerBehavior
  | looping : SchedulerBehavior
deriving Repr, DecidableEq

/-- Fate of `spawn_speedtest_scheduler` as a function of the
`INTERVAL_MINUTES` environment: it computes `min_frequency_duration`, runs one
fetch cycle immediately, then calls `tokio::time::interval` with the computed
duration. That constructor's documented contract panics on a zero period, so
a zero interval kills the task after the single startup cycle; otherwise the
loop runs forever with cycle starts given by `scheduler_cycle_start`. -/
def spawn_speedtest_scheduler (interval_minutes_env : Option String) :
    SchedulerBehavior :=
  let interval := min_frequency_duration interval_minutes_env
  if interval = 0 then SchedulerBehavior.panicked 1
  else SchedulerBehavior.looping

/-- Cache states reachable from process start (empty slot) through every
cache-mutating operation in the crate: the scheduler's fetch-cycle write, the
test setter, and the test clear. -/
inductive CacheReachable : CacheState → Prop where
  | init : CacheReachable none
  | scheduler_write (deser : String → Except String SpeedTestResponse)
      (out : Except String String) (now : Nat) (c : CacheState) :
      CacheReachable c →
      CacheReachable (run_speedtest_and_cache_with_runner deser out now c).1
  | test_set (r : SpeedTestResult) (now : Nat) (c : CacheState) :
      CacheReachable c →
      CacheReachable (set_last_result_for_test r now c)
  | test_clear (c : CacheState) :
      CacheReachable c →
      CacheReachable (clear_last_result_for_test c)

/-- Cache states reachable from process start using only the scheduler's
fetch-cycle write and the clear operation (no arbitrary test writes). -/
inductive SchedulerCacheReachable : CacheState → Prop where
  | init : SchedulerCacheReachable none
  | scheduler_write (deser : String → Except String SpeedTestResponse)
      (out : Except String String) (now : Nat) (c : CacheState) :
      SchedulerCacheReachable c →
      SchedulerCacheReachable (run_speedtest_and_cache_with_runner deser out now c).1
  | test_clear (c : CacheState) :
      SchedulerCacheReachable c →
      SchedulerCacheReachable (clear_last_result_for_test c)

/-- Result invariant from the spec: megabit rates are the bit rates divided by
one million. -/
def result_invariant (r : SpeedTestResult) : Prop :=
  r.download_mbps = r.download_bps / 1000000 ∧
  r.upload_mbps = r.upload_bps / 1000000

/-- Field-by-field derivation contract from the spec (§3): byte counts, ping,
descriptors, share payload and timestamp copied verbatim from the raw
measurement, rates copied as bps, and mbps equal to bps divided by one
million. Stated from the spec's words, to be compared with the code-derived
`canonical_result`. -/
def canonical_derivation_spec (data : SpeedTestResponse)
    (r : SpeedTestResult) : Prop :=
  r.bytes_received = data.bytes_received ∧
  r.bytes_sent = data.bytes_sent ∧
  r.ping_ms = data.ping ∧
  r.client = data.client ∧
  r.server = data.server ∧
  r.share = data.share ∧
  r.timestamp = data.timestamp ∧
  r.download_bps = data.download ∧
  r.upload_bps = data.upload ∧
  r.download_mbps = r.download_bps / 1000000 ∧
  r.upload_mbps = r.upload_bps / 1000000

/-- Concrete raw measurement (the documentation example of `models.rs`),
used as canned data for test-double deserializers. -/
def example_response : SpeedTestResponse :=
  { bytes_received := 12345678
    bytes_sent := 87654321
    client :=
      { country := "UK"
        ip := "192.0.2.1"
        isp := "Example ISP"
        ispdlavg := "50"
        isprating := "4"
        ispulavg := "10"
        lat := "51.5074"
        loggedin := "false"
        lon := "-0.1278"
        rating := "4.5" }
    download := 50000000
    ping := 20
    server :=
      { cc := "GB"
        country := "United Kingdom"
        d := 5
        host := "speedtest.example.com"
        id := "12345"
        lat := "51.5074"
        latency := 21 / 2
        lon := "-0.1278"
        name := "London Server"
        sponsor := "Example Sponsor"
        url := "http://speedtest.example.com" }
    share := none
    timestamp := "2025-08-07T12:00:00Z"
    upload := 10000000 }

/-- Deserializer double that always fails, modelling `serde_json::from_str`
on malformed text. -/
def failing_deser : String → Except String SpeedTestResponse :=
  fun _ => Except.error "expected value at line 1 column 1"

/-- Deserializer double that always succeeds with the example measurement. -/
def example_deser : String → Except String SpeedTestResponse :=
  fun _ => Except.ok example_response

/-- Concrete result whose mbps fields do not equal bps divided by one
million; `set_last_result_for_test` accepts any `SpeedTestResult`, so test
code can cache such a value. -/
def invariant_breaking_result : SpeedTestResult :=
  { bytes_received := 0
    bytes_sent := 0
    download_bps := 0
    upload_bps := 0
    download_mbps := 5
    upload_mbps := 0
    ping_ms := 0
    client := example_response.client
    server := example_response.server
    share := none
    timestamp := "2025-08-07T12:34:56Z" }

/-- Claim C1: for every runner whose run fails and for every runner whose
output fails to deserialize, one fetch cycle leaves the cache slot exactly as
it was before the cycle — a cached result stays cached unchanged, an empty
cache stays empty. -/
theorem fetch_cycle_failure_preserves_cache
    (deser : String → Except String SpeedTestResponse)
    (out : Except String String) (now : Nat) (cache : CacheState)
    (h : (∃ e, out = Except.error e) ∨
         (∃ s e, out = Except.ok s ∧ deser s = Except.error e)) :
    (run_speedtest_and_cache_with_runner deser out now cache).1 = cache := by
  rcases h with ⟨e, rfl⟩ | ⟨s, e, rfl, hdes⟩
  · rfl
  · simp [run_speedtest_and_cache_with_runner, hdes]

/-- Witness for claim C1: a failing runner run against a seeded cache leaves
the seeded entry in place. -/
theorem fetch_cycle_failure_preserves_cache_witness :
    ((∃ e, (Except.error "speedtest-cli failed: network down" :
        Except String String) = Except.error e) ∨
     (∃ s e, (Except.error "speedtest-cli failed: network down" :
        Except String String) = Except.ok s ∧
        failing_deser s = Except.error e)) ∧
    (run_speedtest_and_cache_with_runner failing_deser
        (Except.error "speedtest-cli failed: network down") 3
        (some (canonical_result example_response, 1))).1
      = some (canonical_result example_response, 1) :=
  ⟨Or.inl ⟨"speedtest-cli failed: network down", rfl⟩,
   fetch_cycle_failure_preserves_cache failing_deser
     (Except.error "speedtest-cli failed: network down") 3
     (some (canonical_result example_response, 1))
     (Or.inl ⟨"speedtest-cli failed: network down", rfl⟩)⟩

/-- Claim C2: for every raw output text that deserializes into a valid raw
measurement, the fetch cycle caches the canonically derived result — byte
counts, ping, descriptors, share and timestamp copied verbatim, rates copied
as bps, mbps equal to bps divided by one million — and the derivation is the
pure function `canonical_result` of the parsed fields. -/
theorem fetch_cycle_success_caches_canonical
    (deser : String → Except String SpeedTestResponse)
    (stdout : String) (data : SpeedTestResponse) (now : Nat)
    (cache : CacheState)
    (h : deser stdout = Except.ok data) :
    (run_speedtest_and_cache_with_runner deser (Except.ok stdout) now cache).1
        = some (canonical_result data, now) ∧
    canonical_derivation_spec data (canonical_result data) := by
  refine ⟨?_, rfl, rfl, rfl, rfl, rfl, rfl, rfl, rfl, rfl, rfl, rfl⟩
  simp [run_speedtest_and_cache_with_runner, h]

/-- Witness for claim C2: a deserializer returning the example measurement
makes the cycle cache its canonical derivation. -/
theorem fetch_cycle_success_caches_canonical_witness :
    example_deser "raw output" = Except.ok example_response ∧
    ((run_speedtest_and_cache_with_runner example_deser
        (Except.ok "raw output") 7 none).1
        = some (canonical_result example_response, 7) ∧
     canonical_derivation_spec example_response
        (canonical_result example_response)) :=
  ⟨rfl,
   fetch_cycle_success_caches_canonical example_deser "raw output"
     example_response 7 none rfl⟩

/-- Claim C3 counterexample: the claim quantifies over all states reachable
through the crate's cache-mutating operations including
`set_last_result_for_test`, but that setter stores an arbitrary result
verbatim, so a reachable state caches a result violating the mbps/bps
invariant. -/
theorem cached_invariant_counterexample :
    ¬ (∀ c : CacheState, CacheReachable c →
        ∀ r t, c = some (r, t) → result_invariant r) := by
  intro h
  have hreach : CacheReachable (some (invariant_breaking_result, 0)) :=
    CacheReachable.test_set invariant_breaking_result 0 none CacheReachable.init
  have hinv := h _ hreach invariant_breaking_result 0 rfl
  rcases hinv with ⟨h1, _⟩
  simp only [invariant_breaking_result] at h1
  norm_num at h1

/-- Claim C3 amended: in every cache state reachable through the scheduler's
fetch-cycle write and the clear operation, every cached result satisfies the
mbps/bps invariant (the test setter, which stores its argument verbatim, is
excluded). -/
theorem scheduler_reachable_invariant
    (c : CacheState) (h : SchedulerCacheReachable c) :
    ∀ r t, c = some (r, t) → result_invariant r := by
  induction h with
  | init =>
    intro r t hc
    cases hc
  | scheduler_write deser out now c _ ih =>
    intro r t hc
    cases out with
    | error e => exact ih r t hc
    | ok s =>
      cases hdes : deser s with
      | error e =>
        apply ih r t
        simpa [run_speedtest_and_cache_with_runner, hdes] using hc
      | ok data =>
        have hsome : some (canonical_result data, now) = some (r, t) := by
          simpa [run_speedtest_and_cache_with_runner, hdes] using hc
        obtain ⟨rfl, rfl⟩ : canonical_result data = r ∧ now = t := by
          simpa using hsome
        exact ⟨rfl, rfl⟩
  | test_clear c _ _ =>
    intro r t hc
    simp [clear_last_result_for_test] at hc

/-- Witness for the amended claim C3: the state cached by one successful
fetch cycle from the empty cache satisfies the invariant. -/
theorem scheduler_reachable_invariant_witness :
    SchedulerCacheReachable (some (canonical_result example_response, 5)) ∧
    result_invariant (canonical_result example_response) := by
  have hreach : SchedulerCacheReachable
      (some (canonical_result example_response, 5)) :=
    SchedulerCacheReachable.scheduler_write example_deser
      (Except.ok "raw output") 5 none SchedulerCacheReachable.init
  exact ⟨hreach,
    scheduler_reachable_invariant _ hreach
      (canonical_result example_response) 5 rfl⟩

/-- Claim C4: the read path is a total function of the cache state with
exactly two outcomes — a cached entry yields `Ok` of a copy from the query
service and a 200 JSON response from the `/speed` handler; an empty cache
yields the not-ready error and a 503 response with the fixed body. -/
theorem read_path_two_outcomes (cache : CacheState) :
    (∃ r t, cache = some (r, t) ∧
        get_cached_speedtest_result cache = Except.ok r ∧
        (speedtest cache).status = 200 ∧
        (speedtest cache).body = ResponseBody.json r) ∨
    (cache = none ∧
        get_cached_speedtest_result cache
          = Except.error "Speedtest result not available yet." ∧
        (speedtest cache).status = 503 ∧
        (speedtest cache).body
          = ResponseBody.text "Speedtest result not available yet.") := by
  cases cache with
  | none => exact Or.inr ⟨rfl, rfl, rfl, rfl⟩
  | some p => exact Or.inl ⟨p.1, p.2, rfl, rfl, rfl, rfl⟩

/-- Claim C5, evaluation at the failing input: with a 600-second interval the
initial fetch cycle starts at time 0 and the second fetch cycle also starts
at time 0 — tokio's first interval tick completes immediately — so no full
interval elapses between the first and second cycles; only from the second
loop iteration on are cycles spaced by the interval. -/
theorem scheduler_second_cycle_immediate :
    scheduler_cycle_start 600 0 = 0 ∧
    scheduler_cycle_start 600 1 = 0 ∧
    scheduler_cycle_start 600 2 = 600 ∧
    scheduler_cycle_start 600 1 - scheduler_cycle_start 600 0 ≠ 600 := by
  decide

/-- Claim C6: the production runner's outcomes are exhaustive over the
child-process outcome and mutually exclusive (the three disjuncts force
disjoint process-outcome shapes): a successful exit returns the captured
stdout text, a completed-but-failed run returns the tool-failed error
carrying the captured stderr text, and a spawn failure returns the
spawn-failed error carrying the reason. -/
theorem run_speedtest_outcomes (proc : ProcessOutcome) :
    (∃ out err, proc = ProcessOutcome.completed true out err ∧
        RealSpeedtestRunner.run_speedtest proc = Except.ok out) ∨
    (∃ out err, proc = ProcessOutcome.completed false out err ∧
        RealSpeedtestRunner.run_speedtest proc
          = Except.error ("speedtest-cli failed: " ++ err)) ∨
    (∃ reason, proc = ProcessOutcome.spawn_error reason ∧
        RealSpeedtestRunner.run_speedtest proc
          = Except.error ("Failed to run speedtest-cli: " ++ reason)) := by
  cases proc with
  | spawn_error e => exact Or.inr (Or.inr ⟨e, rfl, rfl⟩)
  | completed success stdout stderr =>
    cases success with
    | true => exact Or.inl ⟨stdout, stderr, rfl, rfl⟩
    | false => exact Or.inr (Or.inl ⟨stdout, stderr, rfl, rfl⟩)

/-- Claim C7: writing a result and then reading returns `some` of that very
result, and clearing followed by reading returns `none`, for every prior
cache state. -/
theorem cache_set_get_round_trip (r : SpeedTestResult) (now : Nat)
    (cache cache' : CacheState) :
    get_last_result (set_last_result_for_test r now cache) = some r ∧
    get_last_result (clear_last_result_for_test cache') = none :=
  ⟨rfl, rfl⟩

/-- Claim C8 counterexample: a zero interval is not guarded anywhere — with
`INTERVAL_MINUTES=0` the configured duration is zero (no clamping in
`min_frequency_duration`), and the scheduler hands it to tokio's interval
constructor, whose documented contract panics on a zero period: the task
dies after its single startup cycle rather than being guarded. -/
theorem zero_interval_guard_counterexample :
    min_frequency_duration (some "0") = 0 ∧
    spawn_speedtest_scheduler (some "0") = SchedulerBehavior.panicked 1 :=
  ⟨rfl, rfl⟩

/-- Claim C8 amended: the code contains no guard for a zero interval; instead
a zero configured duration makes the scheduler task panic after its single
startup fetch cycle (tokio's interval constructor panics on a zero period),
and any nonzero duration yields the normal endless loop — so back-to-back
cycles never occur, through a panic rather than a guard. -/
theorem zero_interval_panics :
    (∀ env, min_frequency_duration env = 0 →
        spawn_speedtest_scheduler env = SchedulerBehavior.panicked 1) ∧
    (∀ env, min_frequency_duration env ≠ 0 →
        spawn_speedtest_scheduler env = SchedulerBehavior.looping) := by
  constructor
  · intro env h
    simp [spawn_speedtest_scheduler, h]
  · intro env h
    simp [spawn_speedtest_scheduler, h]

/-- Witness for the amended claim C8: the default configuration gives a
nonzero interval and the looping behavior. -/
theorem zero_interval_panics_witness :
    min_frequency_duration none ≠ 0 ∧
    spawn_speedtest_scheduler none = SchedulerBehavior.looping :=
  ⟨by decide, zero_interval_panics.2 none (by decide)⟩

/-- Claim C9 counterexample: the configured minutes are multiplied by 60 in
`u64` arithmetic, which wraps; for the parse-accepted value
307445734561825861 the returned duration is 44 seconds, not 60 times the
configured minutes. -/
theorem interval_seconds_counterexample :
    min_frequency_duration (some "307445734561825861") = 44 ∧
    (307445734561825861 : Nat) * 60 ≠ 44 := by
  constructor
  · rfl
  · decide

/-- Claim C9 amended: for every parsed minutes value whose 60-fold product
fits in a `u64`, `min_frequency_duration` returns exactly that many minutes
in seconds (the `u64` product wraps otherwise), and 600 seconds when no
value is configured. -/
theorem interval_seconds_amended :
    (∀ s m, u64_from_str s = some m → m * 60 < 2 ^ 64 →
        min_frequency_duration (some s) = m * 60) ∧
    min_frequency_duration none = 600 := by
  constructor
  · intro s m hparse hlt
    show ((some s).bind u64_from_str).getD 10 * 60 % 2 ^ 64 = m * 60
    rw [Option.some_bind, hparse, Option.getD_some, Nat.mod_eq_of_lt hlt]
  · rfl

/-- Witness for the amended claim C9: two configured minutes give a
120-second duration. -/
theorem interval_seconds_amended_witness :
    u64_from_str "2" = some 2 ∧ min_frequency_duration (some "2") = 120 :=
  ⟨rfl, interval_seconds_amended.1 "2" 2 rfl (by decide)⟩

/-- Claim C10: reading the interval configuration never fails — whenever the
`INTERVAL_MINUTES` variable is absent or its value does not parse as an
unsigned integer, `min_frequency_duration` silently returns the 600-second
default. -/
theorem interval_lenient_fallback
    (env : Option String)
    (h : env = none ∨ ∃ s, env = some s ∧ u64_from_str s = none) :
    min_frequency_duration env = 600 := by
  rcases h with rfl | ⟨s, rfl, hp⟩
  · rfl
  · simp [min_frequency_duration, hp]

/-- Witness for claim C10: a negative-number string does not parse as `u64`
and falls back to the default. -/
theorem interval_lenient_fallback_witness :
    u64_from_str "-5" = none ∧ min_frequency_duration (some "-5") = 600 :=
  ⟨rfl, interval_lenient_fallback (some "-5") (Or.inr ⟨"-5", rfl, rfl⟩)⟩
